import Mathlib

/-!
Shallow embedding of `src/aws/server/services.py` (treadmill_createserver).

Modelling conventions:
* Python strings are `List Char` (`Str`).
* JSON values are the inductive `JVal`; Python dicts are ordered association
  lists, as built literally in the source.
* A call that may raise is an `Except Str` value (the error is the exception
  text); a method's observable outcome is a `PyCall`: the value returned to
  the caller (or the exception propagated to it) together with the log lines
  the method emitted.
* The network transport (`requests.post` + `.json()`) is a parameter: a
  function from the posted payload to a `Response` whose `json` field is the
  outcome of parsing the body.
* `random.choice` is modelled by an explicit seed index `k`: the chosen
  element is the one at position `k % length`.  A seeded random source fixes
  `k`, so reproducibility is determinism of the embedding.
-/

namespace Services

/-- Python strings are modelled as lists of characters. -/
abbrev Str := List Char

/-- the module constant API_VERSION = '2.28' (services.py line 13) -/
def API_VERSION : Str := "2.28".toList

/-- JSON-like values: payloads posted to the IPA server and parsed bodies. -/
inductive JVal where
  | null : JVal
  | bool : Bool → JVal
  | num : Int → JVal
  | str : Str → JVal
  | arr : List JVal → JVal
  | obj : List (Str × JVal) → JVal

/-- lookup of a key in a Python dict (ordered association list) -/
def lookupField (k : Str) : List (Str × JVal) → Option JVal
  | [] => none
  | (k', v) :: rest => if k' = k then some v else lookupField k rest

/-- dict subscript `v[k]` on a JSON value: KeyError when the key is absent,
TypeError when the value is not a dict. -/
def pyGetItem (v : JVal) (k : Str) : Except Str JVal :=
  match v with
  | .obj fields =>
    match lookupField k fields with
    | some x => .ok x
    | none => .error ("KeyError".toList)
  | _ => .error ("TypeError".toList)

/-- Python truthiness of a JSON value (None, False, 0, empty containers are
falsy). -/
def JVal.truthy : JVal → Bool
  | .null => false
  | .bool b => b
  | .num n => decide (n ≠ 0)
  | .str s => decide (s ≠ [])
  | .arr l => !l.isEmpty
  | .obj l => !l.isEmpty

/-- outcome of `.json()` on an HTTP response: parsed value or raised parse
exception -/
structure Response where
  json : Except Str JVal

/-- observable outcome of one Python method call: the value handed to the
caller (`Except.error` would be an exception propagating out) and the log
lines emitted -/
structure PyCall (α : Type) where
  result : Except Str α
  logs : List Str

/-- log line for `_LOGGER.error(r, str(e))` in the except branches -/
def errorLogLine (e : Str) : Str := "ERROR ".toList ++ e

/-- message of the RuntimeError a bare `raise` throws when no exception is
being handled -/
def bareRaiseMsg : Str := "RuntimeError: No active exception to re-raise".toList

/-- payload built by IPAClient.enroll_ipa_host (services.py lines 56-63) -/
def enroll_payload (hostname : Str) : JVal :=
  .obj [("method".toList, .str ("host_add".toList)),
        ("params".toList, .arr [.arr [.str hostname],
                                .obj [("force".toList, .bool true),
                                      ("random".toList, .bool true),
                                      ("version".toList, .str API_VERSION)]]),
        ("id".toList, .num 0)]

/-- payload built by IPAClient.unenroll_ipa_host (services.py lines 72-77) -/
def unenroll_payload (hostname : Str) : JVal :=
  .obj [("method".toList, .str ("host_del".toList)),
        ("params".toList, .arr [.arr [.str hostname],
                                .obj [("version".toList, .str API_VERSION)]]),
        ("id".toList, .num 0)]

/-- payload built by IPAClient.get_ipa_hosts (services.py lines 87-91):
host_find with the empty-string filter -/
def get_ipa_hosts_payload : JVal :=
  .obj [("method".toList, .str ("host_find".toList)),
        ("params".toList, .arr [.arr [.str []],
                                .obj [("version".toList, .str API_VERSION)]]),
        ("id".toList, .num 0)]

/-- payload built by IPAClient.get_ipa_host (services.py lines 100-104) -/
def get_ipa_host_payload (hostname : Str) : JVal :=
  .obj [("method".toList, .str ("host_find".toList)),
        ("params".toList, .arr [.arr [.str hostname],
                                .obj [("version".toList, .str API_VERSION)]]),
        ("id".toList, .num 0)]

/-- IPAClient.enroll_ipa_host (services.py lines 54-68): post the payload,
then `try: return r.json() except Exception: log` -/
def enroll_ipa_host (transport : JVal → Response) (hostname : Str) :
    PyCall (Option JVal) :=
  match (transport (enroll_payload hostname)).json with
  | .ok v => { result := .ok (some v), logs := [] }
  | .error e => { result := .ok none, logs := [errorLogLine e] }

/-- IPAClient.unenroll_ipa_host (services.py lines 70-83): post the payload,
then `try: if r.json()['error']: raise except Exception: log`.  The bare
`raise` has no active exception, so it throws a RuntimeError that the
enclosing `except Exception` immediately catches and logs; every path falls
out of the method returning None. -/
def unenroll_ipa_host (transport : JVal → Response) (hostname : Str) :
    PyCall (Option JVal) :=
  match (transport (unenroll_payload hostname)).json with
  | .error e => { result := .ok none, logs := [errorLogLine e] }
  | .ok v =>
    match pyGetItem v ("error".toList) with
    | .error e => { result := .ok none, logs := [errorLogLine e] }
    | .ok x =>
      if x.truthy then
        { result := .ok none, logs := [errorLogLine bareRaiseMsg] }
      else
        { result := .ok none, logs := [] }

/-- IPAClient.get_ipa_hosts (services.py lines 85-96) -/
def get_ipa_hosts (transport : JVal → Response) : PyCall (Option JVal) :=
  match (transport get_ipa_hosts_payload).json with
  | .ok v => { result := .ok (some v), logs := [] }
  | .error e => { result := .ok none, logs := [errorLogLine e] }

/-- IPAClient.get_ipa_host (services.py lines 98-109) -/
def get_ipa_host (transport : JVal → Response) (hostname : Str) :
    PyCall (Option JVal) :=
  match (transport (get_ipa_host_payload hostname)).json with
  | .ok v => { result := .ok (some v), logs := [] }
  | .error e => { result := .ok none, logs := [errorLogLine e] }

/-- transport that parses back exactly the posted payload -/
def echoTransport : JVal → Response := fun payload => { json := .ok payload }

/-- an SRV answer record as the DNS resolver returns it; `to_text` renders the
four fields separated by single spaces, the target last (dnspython's SRV
format `priority weight port target`) -/
structure SRVRecord where
  priority : Str
  weight : Str
  port : Str
  target : Str
deriving DecidableEq

/-- textual rendering of an SRV record, `result.to_text()` in the source -/
def SRVRecord.to_text (r : SRVRecord) : Str :=
  r.priority ++ [' '] ++ r.weight ++ [' '] ++ r.port ++ [' '] ++ r.target

/-- Python str.split() restricted to the space separators occurring here:
split on spaces, dropping empty pieces -/
def pySplit (s : Str) : List Str :=
  (s.splitOn ' ').filter (fun w => !w.isEmpty)

/-- random.choice with an explicit seed index: the element at position
`k % length` (none on an empty list, where Python raises IndexError) -/
def choice (l : List α) (k : Nat) : Option α := l[k % l.length]?

/-- IPAClient.get_ipa_server_from_dns (services.py lines 34-41): render all
SRV answers to text, pick one at random, take the last whitespace-separated
word -/
def get_ipa_server_from_dns (answers : List SRVRecord) (k : Nat) : Option Str :=
  let raw_results := answers.map SRVRecord.to_text
  match choice raw_results k with
  | none => none
  | some chosen => (pySplit chosen).getLast?

/-- the constructor's `self.get_ipa_server_from_dns(self.domain)[:-1]`
(services.py line 28): the resolved server name with its last character
stripped -/
def ipa_server_hostn (answers : List SRVRecord) (k : Nat) : Option Str :=
  (get_ipa_server_from_dns answers k).map List.dropLast

/-- well-formedness of an SRV answer as the resolver produces it: all four
text fields are nonempty and space-free, and the target is an absolute DNS
name ending in a period -/
def SRVRecord.wf (r : SRVRecord) : Prop :=
  r.priority ≠ [] ∧ ' ' ∉ r.priority ∧
  r.weight ≠ [] ∧ ' ' ∉ r.weight ∧
  r.port ≠ [] ∧ ' ' ∉ r.port ∧
  r.target ≠ [] ∧ ' ' ∉ r.target ∧ r.target.getLast? = some '.'

instance (r : SRVRecord) : Decidable r.wf := by
  unfold SRVRecord.wf
  infer_instance

/-- the manifest consumed by AWSClient.create_instance; `secgroup_ids` is an
opaque caller-supplied value (string or list), so it is kept as a `JVal` -/
structure Manifest where
  image_id : Str
  count : Nat
  instance_type : Str
  key : Str
  subnet_id : Str
  secgroup_ids : JVal
  fqdn : Str
  domain : Str
  realm : Str
  otp : Str

/-- the apostrophe character, used around the one-time password in the
bootstrap template -/
def squote : Char := Char.ofNat 39

/-- template chunk before the first fqdn substitution -/
def tplChunk1 : Str := "#!/bin/bash \nhostnamectl set-hostname ".toList

/-- template chunk between set-hostname fqdn and the server fqdn; the
backslash-newline pairs inside the Python literal are line continuations and
vanish -/
def tplChunk2 : Str :=
  "\n \nyum install -y ipa-client-install\n\nipa-client-install --server=".toList

/-- template chunk between the server fqdn and the domain -/
def tplChunk3 : Str := " --domain=".toList

/-- template chunk between domain and realm: the stray backslash-space in the
Python literal is not a line continuation, so a literal backslash, space and
newline survive here -/
def tplChunk4 : Str := " \\ \n--realm=".toList

/-- template chunk between realm and the opening quote of the password -/
def tplChunk5 : Str := "  --password=".toList ++ [squote]

/-- template tail after the password: the closing quote is glued directly to
--mkhomedir because the line continuation left no space -/
def tplChunk6 : Str := [squote] ++ "--mkhomedir --no-ntp --unattended".toList

/-- AWSClient.render_manifest (services.py lines 156-171): pure `.format` of
the bootstrap template with fqdn (twice), domain, realm and otp -/
def render_manifest (m : Manifest) : Str :=
  tplChunk1 ++ m.fqdn ++ tplChunk2 ++ m.fqdn ++ tplChunk3 ++ m.domain ++
    tplChunk4 ++ m.realm ++ tplChunk5 ++ m.otp ++ tplChunk6

/-- a cloud instance record; only the fields this module touches -/
structure Instance where
  InstanceId : Str
deriving DecidableEq

/-- one reservation of the describe_instances response -/
structure Reservation where
  Instances : List Instance
deriving DecidableEq

/-- response of ec2_conn.describe_instances -/
structure DescribeResponse where
  Reservations : List Reservation
deriving DecidableEq

/-- one filter dict `\x7b'Name': ..., 'Values': ...\x7d` passed to
describe_instances -/
structure TagFilter where
  Name : Str
  Values : List Str
deriving DecidableEq

/-- network interface spec built by create_instance (services.py lines
128-132); Groups is the literal list `[manifest['secgroup_ids']]` -/
structure NetworkInterfaceSpec where
  DeviceIndex : Nat
  SubnetId : Str
  Groups : List JVal

/-- keyword arguments of ec2_conn.run_instances as create_instance builds
them (services.py lines 121-133) -/
structure RunInstancesRequest where
  ImageId : Str
  MinCount : Nat
  MaxCount : Nat
  InstanceType : Str
  KeyName : Str
  UserData : Str
  NetworkInterfaces : List NetworkInterfaceSpec

/-- calls the module makes on the cloud connection: the read
describe_instances, the mutating run_instances, and the terminate call the
SDK offers but this module never issues -/
inductive AwsAction where
  | describeInstances : List TagFilter → AwsAction
  | runInstances : RunInstancesRequest → AwsAction
  | terminateInstances : List Str → AwsAction

/-- the cloud connection, as the responder behind the two SDK calls the
module uses -/
structure Conn where
  describe_instances : List TagFilter → DescribeResponse
  run_instances : RunInstancesRequest → List Instance

/-- provider-side state as a history of accepted mutations -/
structure EC2State where
  launched : List RunInstancesRequest
  terminated : List Str

/-- effect of one SDK call on provider state: describe_instances reads only,
run_instances records a launch, terminate_instances records terminations -/
def applyAction (st : EC2State) : AwsAction → EC2State
  | .describeInstances _ => st
  | .runInstances req => { st with launched := st.launched ++ [req] }
  | .terminateInstances ids => { st with terminated := st.terminated ++ ids }

/-- a Python list comprehension `[x for xs in xss for x in xs]`: the nested
loop appends one element at a time to the accumulating list -/
def pyFlatten (xss : List (List α)) : List α :=
  xss.foldl (fun acc xs => xs.foldl (fun acc2 x => acc2 ++ [x]) acc) []

/-- AWSClient.get_instance_by_hostname (services.py lines 142-154): describe
instances filtered by tag Name == hostname, collect each reservation's
Instances, flatten; paired with the trace of SDK calls issued -/
def get_instance_by_hostname (conn : Conn) (hostname : Str) :
    List AwsAction × List Instance :=
  let filters := [{ Name := "tag:Name".toList, Values := [hostname] : TagFilter }]
  let reservations :=
    ((conn.describe_instances filters).Reservations).map Reservation.Instances
  ([AwsAction.describeInstances filters], pyFlatten reservations)

/-- AWSClient.delete_instance (services.py lines 136-140): look the instances
up, log a Delete line for each; no further SDK call is made -/
def delete_instance (conn : Conn) (hostname : Str) :
    List AwsAction × List Str :=
  let looked := get_instance_by_hostname conn hostname
  (looked.1,
   looked.2.map (fun inst => "Delete ".toList ++ inst.InstanceId))

/-- the run_instances keyword arguments create_instance builds from the
manifest (services.py lines 121-133) -/
def create_instance_request (m : Manifest) : RunInstancesRequest :=
  { ImageId := m.image_id,
    MinCount := m.count,
    MaxCount := m.count,
    InstanceType := m.instance_type,
    KeyName := m.key,
    UserData := render_manifest m,
    NetworkInterfaces := [{ DeviceIndex := 0,
                            SubnetId := m.subnet_id,
                            Groups := [m.secgroup_ids] }] }

/-- AWSClient.create_instance (services.py lines 118-134): render the
manifest to user-data, issue run_instances with the built request; returns
the trace of SDK calls issued -/
def create_instance (conn : Conn) (m : Manifest) : List AwsAction :=
  let req := create_instance_request m
  let _instances := conn.run_instances req
  [AwsAction.runInstances req]

/-- whether an SDK call changes provider state -/
def AwsAction.isMutation : AwsAction → Bool
  | .describeInstances _ => false
  | .runInstances _ => true
  | .terminateInstances _ => true

/-- key lookup on a JSON object value -/
def JVal.lookup (v : JVal) (k : Str) : Option JVal :=
  match v with
  | .obj fields => lookupField k fields
  | _ => none

/-- shape every JSON-RPC request of the directory client must have: a method
key, a params value that is a two-element array of positional arguments and
a keyword object carrying the API version, and an id key -/
def ipa_request_well_formed (p : JVal) : Prop :=
  (∃ name, p.lookup ("method".toList) = some (JVal.str name)) ∧
  (∃ pos kw, p.lookup ("params".toList) =
      some (JVal.arr [JVal.arr pos, JVal.obj kw]) ∧
    ("version".toList, JVal.str API_VERSION) ∈ kw) ∧
  (∃ i, p.lookup ("id".toList) = some i)

/-- transport whose parsed body carries a non-null error field -/
def errTransport : JVal → Response :=
  fun _ =>
    { json := .ok (JVal.obj [("error".toList,
                              JVal.obj [("code".toList, JVal.num 4001)])]) }

/-- transport whose response body fails JSON parsing -/
def badTransport : JVal → Response :=
  fun _ => { json := .error ("Expecting value: line 1 column 1".toList) }

/-- sample hostname for concrete evaluations -/
def demoHostname : Str := "host1.example.com".toList

/-- sample SRV answer set with two replicas, absolute targets -/
def demoAnswers : List SRVRecord :=
  [{ priority := "0".toList, weight := "100".toList, port := "88".toList,
     target := "ipa1.example.com.".toList },
   { priority := "0".toList, weight := "100".toList, port := "88".toList,
     target := "ipa2.example.com.".toList }]

/-- sample list-valued security-group entry -/
def demoGroups : List JVal :=
  [JVal.str ("sg-11111111".toList), JVal.str ("sg-22222222".toList)]

/-- sample manifest whose secgroup_ids holds two group ids as a list -/
def demoManifest : Manifest :=
  { image_id := "ami-0abcd1234".toList,
    count := 1,
    instance_type := "t2.micro".toList,
    key := "tm-key".toList,
    subnet_id := "subnet-123".toList,
    secgroup_ids := JVal.arr demoGroups,
    fqdn := "host1.example.com".toList,
    domain := "example.com".toList,
    realm := "EXAMPLE.COM".toList,
    otp := "Secret0TP".toList }

/-- sample instances A, B, C for the flattening example -/
def instA : Instance := { InstanceId := "i-aaa".toList }

/-- sample instance B -/
def instB : Instance := { InstanceId := "i-bbb".toList }

/-- sample instance C -/
def instC : Instance := { InstanceId := "i-ccc".toList }

/-- sample connection whose describe response nests [[A, B], [C]] -/
def demoConn : Conn :=
  { describe_instances := fun _ =>
      { Reservations := [{ Instances := [instA, instB] },
                         { Instances := [instC] }] },
    run_instances := fun _ => [] }

theorem filter_nonempty_eq (l : List Str) (h : ∀ x ∈ l, x ≠ []) :
    l.filter (fun w => !w.isEmpty) = l :=
  List.filter_eq_self.mpr (fun a ha => by
    cases a with
    | nil => exact absurd rfl (h _ ha)
    | cons c cs => rfl)

theorem intercalate_four (x : α) (a b c d : List α) :
    [x].intercalate [a, b, c, d] = a ++ [x] ++ b ++ [x] ++ c ++ [x] ++ d := by
  simp [List.intercalate, List.intersperse, List.append_assoc]

theorem pySplit_to_text (r : SRVRecord) (h : r.wf) :
    pySplit (SRVRecord.to_text r) =
      [r.priority, r.weight, r.port, r.target] := by
  obtain ⟨hp1, hp2, hw1, hw2, hpo1, hpo2, ht1, ht2, _⟩ := h
  have hrw : SRVRecord.to_text r =
      [' '].intercalate [r.priority, r.weight, r.port, r.target] := by
    rw [intercalate_four]
    simp [SRVRecord.to_text, List.append_assoc]
  have hx : ∀ l ∈ [r.priority, r.weight, r.port, r.target], ' ' ∉ l := by
    intro l hl
    simp only [List.mem_cons, List.not_mem_nil, or_false] at hl
    rcases hl with rfl | rfl | rfl | rfl <;> assumption
  have hls : ([r.priority, r.weight, r.port, r.target] : List Str) ≠ [] := by
    simp
  unfold pySplit
  rw [hrw, List.splitOn_intercalate _ ' ' hx hls]
  apply filter_nonempty_eq
  intro x hxx
  simp only [List.mem_cons, List.not_mem_nil, or_false] at hxx
  rcases hxx with rfl | rfl | rfl | rfl <;> assumption

theorem foldl_append_singleton (xs acc : List α) :
    xs.foldl (fun a x => a ++ [x]) acc = acc ++ xs := by
  induction xs generalizing acc with
  | nil => simp
  | cons x t ih => simp [List.foldl_cons, ih]

theorem pyFlatten_go (xss : List (List α)) (acc : List α) :
    xss.foldl (fun acc xs => xs.foldl (fun a x => a ++ [x]) acc) acc =
      acc ++ xss.flatten := by
  induction xss generalizing acc with
  | nil => simp
  | cons xs t ih =>
    rw [List.foldl_cons, foldl_append_singleton, ih, List.flatten_cons,
        List.append_assoc]

theorem pyFlatten_eq_flatten (xss : List (List α)) :
    pyFlatten xss = xss.flatten := by
  simpa [pyFlatten] using pyFlatten_go xss []

/-- C2: for every response whose parsed JSON body has a non-null error field,
unenroll_ipa_host is claimed to surface a classified failure; the code
instead swallows it (the bare raise throws a RuntimeError that its own
except clause catches), so the method hands the caller a plain None on the
concrete failing response, and in fact on every transport. -/
theorem unenroll_error_swallowed :
    (unenroll_ipa_host errTransport demoHostname).result = Except.ok none ∧
    (unenroll_ipa_host errTransport demoHostname).logs =
      [errorLogLine bareRaiseMsg] ∧
    ∀ transport hostname,
      (unenroll_ipa_host transport hostname).result = Except.ok none := by
  refine ⟨rfl, rfl, ?_⟩
  intro transport hostname
  unfold unenroll_ipa_host
  split
  · rfl
  · split
    · rfl
    · split
      · rfl
      · rfl

/-- C4: enroll_ipa_host builds a host_add request whose params second
element carries force: true, random: true and version "2.28", and an echoing
transport hands exactly that payload back to the caller. -/
theorem enroll_request_spec (hostname : Str) :
    (enroll_payload hostname).lookup ("method".toList) =
      some (JVal.str ("host_add".toList)) ∧
    (∃ kw, (enroll_payload hostname).lookup ("params".toList) =
        some (JVal.arr [JVal.arr [JVal.str hostname], JVal.obj kw]) ∧
      ("force".toList, JVal.bool true) ∈ kw ∧
      ("random".toList, JVal.bool true) ∈ kw ∧
      ("version".toList, JVal.str API_VERSION) ∈ kw) ∧
    enroll_ipa_host echoTransport hostname =
      { result := Except.ok (some (enroll_payload hostname)), logs := [] } := by
  refine ⟨rfl, ⟨_, rfl, ?_, ?_, ?_⟩, rfl⟩
  · exact List.mem_cons_self _ _
  · exact List.mem_cons_of_mem _ (List.mem_cons_self _ _)
  · exact List.mem_cons_of_mem _ (List.mem_cons_of_mem _ (List.mem_cons_self _ _))

/-- C9: every JSON-RPC payload the directory client's four public methods
build carries a method key, a params value that is a two-element sequence of
positional arguments and a keyword object containing the API version, and an
id key. -/
theorem ipa_requests_well_formed (hostname : Str) :
    ipa_request_well_formed (enroll_payload hostname) ∧
    ipa_request_well_formed (unenroll_payload hostname) ∧
    ipa_request_well_formed get_ipa_hosts_payload ∧
    ipa_request_well_formed (get_ipa_host_payload hostname) := by
  refine ⟨⟨⟨_, rfl⟩, ⟨_, _, rfl, ?_⟩, ⟨_, rfl⟩⟩,
          ⟨⟨_, rfl⟩, ⟨_, _, rfl, ?_⟩, ⟨_, rfl⟩⟩,
          ⟨⟨_, rfl⟩, ⟨_, _, rfl, ?_⟩, ⟨_, rfl⟩⟩,
          ⟨⟨_, rfl⟩, ⟨_, _, rfl, ?_⟩, ⟨_, rfl⟩⟩⟩
  · exact List.mem_cons_of_mem _ (List.mem_cons_of_mem _ (List.mem_cons_self _ _))
  · exact List.mem_cons_self _ _
  · exact List.mem_cons_self _ _
  · exact List.mem_cons_self _ _

/-- C8: create_instance issues a run_instances request with MinCount and
MaxCount both the manifest count, image, instance type and key pair taken
from the manifest, the rendered bootstrap script as user-data, and exactly
one network interface on the manifest subnet with the manifest security
groups entry. -/
theorem create_instance_request_spec (conn : Conn) (m : Manifest) :
    (create_instance_request m).MinCount = m.count ∧
    (create_instance_request m).MaxCount = m.count ∧
    (create_instance_request m).ImageId = m.image_id ∧
    (create_instance_request m).InstanceType = m.instance_type ∧
    (create_instance_request m).KeyName = m.key ∧
    (create_instance_request m).UserData = render_manifest m ∧
    (create_instance_request m).NetworkInterfaces =
      [{ DeviceIndex := 0, SubnetId := m.subnet_id,
         Groups := [m.secgroup_ids] }] ∧
    create_instance conn m =
      [AwsAction.runInstances (create_instance_request m)] :=
  ⟨rfl, rfl, rfl, rfl, rfl, rfl, rfl, rfl⟩

/-- C5: delete_instance only describes instances and logs one Delete line
per match: its SDK trace has no mutating call and leaves any provider state
unchanged under the action semantics. -/
theorem delete_instance_no_mutation (conn : Conn) (hostname : Str)
    (st : EC2State) :
    ((delete_instance conn hostname).1).foldl applyAction st = st ∧
    ((delete_instance conn hostname).1).all
      (fun a => !a.isMutation) = true ∧
    (delete_instance conn hostname).2 =
      ((get_instance_by_hostname conn hostname).2).map
        (fun inst => "Delete ".toList ++ inst.InstanceId) :=
  ⟨rfl, rfl, rfl⟩

/-- C3: get_instance_by_hostname flattens the reservation-to-instances
nesting into the ordered concatenation of the nested instance lists (the
order-preserving flatten containing exactly the union), and on the sample
response nesting [[A, B], [C]] it yields [A, B, C]. -/
theorem get_instance_flattens (conn : Conn) (hostname : Str) :
    (get_instance_by_hostname conn hostname).2 =
      (((conn.describe_instances
          [{ Name := "tag:Name".toList,
             Values := [hostname] }]).Reservations).map
        Reservation.Instances).flatten ∧
    (get_instance_by_hostname demoConn demoHostname).2 =
      [instA, instB, instC] := by
  constructor
  · unfold get_instance_by_hostname
    exact pyFlatten_eq_flatten _
  · rfl

/-- C10: the network interface create_instance builds always carries Groups
equal to the one-element list wrapping the manifest secgroup_ids value, so a
list-valued secgroup_ids of length other than one is nested, never spliced
into Groups. -/
theorem groups_wraps_secgroup_ids (m : Manifest) :
    ((create_instance_request m).NetworkInterfaces.map
        NetworkInterfaceSpec.Groups) = [[m.secgroup_ids]] ∧
    ∀ l, m.secgroup_ids = JVal.arr l → l.length ≠ 1 →
      ((create_instance_request m).NetworkInterfaces.map
          NetworkInterfaceSpec.Groups) ≠ [l] := by
  refine ⟨rfl, ?_⟩
  intro l hl hlen hcontra
  have h1 : ([[m.secgroup_ids]] : List (List JVal)) = [l] := hcontra
  have h2 : [m.secgroup_ids] = l := by
    injection h1
  have : l.length = 1 := by
    rw [← h2]
    rfl
  exact hlen this

/-- C10 witness: on the sample manifest, whose secgroup_ids is the
two-element list of group ids, Groups is not that two-element list. -/
theorem groups_wraps_secgroup_ids_witness :
    demoManifest.secgroup_ids = JVal.arr demoGroups ∧
    demoGroups.length ≠ 1 ∧
    ((create_instance_request demoManifest).NetworkInterfaces.map
        NetworkInterfaceSpec.Groups) ≠ [demoGroups] :=
  ⟨rfl, by decide,
    (groups_wraps_secgroup_ids demoManifest).2 demoGroups rfl (by decide)⟩

/-- C7: render_manifest is pure (equal manifests give byte-identical script
text) and the script text contains the manifest fqdn, domain, realm and
one-time password verbatim as substrings. -/
theorem render_manifest_spec (m m' : Manifest) (hm : m = m') :
    render_manifest m = render_manifest m' ∧
    (∃ s t, s ++ m.fqdn ++ t = render_manifest m) ∧
    (∃ s t, s ++ m.domain ++ t = render_manifest m) ∧
    (∃ s t, s ++ m.realm ++ t = render_manifest m) ∧
    (∃ s t, s ++ m.otp ++ t = render_manifest m) := by
  subst hm
  refine ⟨rfl,
          ⟨tplChunk1,
           tplChunk2 ++ m.fqdn ++ tplChunk3 ++ m.domain ++ tplChunk4 ++
             m.realm ++ tplChunk5 ++ m.otp ++ tplChunk6, ?_⟩,
          ⟨tplChunk1 ++ m.fqdn ++ tplChunk2 ++ m.fqdn ++ tplChunk3,
           tplChunk4 ++ m.realm ++ tplChunk5 ++ m.otp ++ tplChunk6, ?_⟩,
          ⟨tplChunk1 ++ m.fqdn ++ tplChunk2 ++ m.fqdn ++ tplChunk3 ++
             m.domain ++ tplChunk4,
           tplChunk5 ++ m.otp ++ tplChunk6, ?_⟩,
          ⟨tplChunk1 ++ m.fqdn ++ tplChunk2 ++ m.fqdn ++ tplChunk3 ++
             m.domain ++ tplChunk4 ++ m.realm ++ tplChunk5,
           tplChunk6, ?_⟩⟩ <;>
    simp [render_manifest, List.append_assoc]

/-- C7 witness: the theorem instantiated at the sample manifest. -/
theorem render_manifest_spec_witness :
    demoManifest = demoManifest ∧
    (render_manifest demoManifest = render_manifest demoManifest ∧
     (∃ s t, s ++ demoManifest.fqdn ++ t = render_manifest demoManifest) ∧
     (∃ s t, s ++ demoManifest.domain ++ t = render_manifest demoManifest) ∧
     (∃ s t, s ++ demoManifest.realm ++ t = render_manifest demoManifest) ∧
     (∃ s t, s ++ demoManifest.otp ++ t = render_manifest demoManifest)) :=
  ⟨rfl, render_manifest_spec demoManifest demoManifest rfl⟩

/-- C6: against a transport whose body fails JSON parsing, each read-style
method (enroll_ipa_host, get_ipa_host, get_ipa_hosts) catches the parse
exception, logs it, and hands the caller None instead of propagating it. -/
theorem parse_failure_not_propagated (transport : JVal → Response)
    (hostname : Str)
    (h : ∀ p, ∃ e, (transport p).json = Except.error e) :
    ((enroll_ipa_host transport hostname).result = Except.ok none ∧
      (enroll_ipa_host transport hostname).logs ≠ []) ∧
    ((get_ipa_host transport hostname).result = Except.ok none ∧
      (get_ipa_host transport hostname).logs ≠ []) ∧
    ((get_ipa_hosts transport).result = Except.ok none ∧
      (get_ipa_hosts transport).logs ≠ []) := by
  obtain ⟨e1, he1⟩ := h (enroll_payload hostname)
  obtain ⟨e2, he2⟩ := h (get_ipa_host_payload hostname)
  obtain ⟨e3, he3⟩ := h get_ipa_hosts_payload
  refine ⟨⟨?_, ?_⟩, ⟨?_, ?_⟩, ⟨?_, ?_⟩⟩ <;>
    simp [enroll_ipa_host, get_ipa_host, get_ipa_hosts, he1, he2, he3]

/-- C1: on any non-empty SRV answer set of well-formed records, the
constructor-composed resolution (get_ipa_server_from_dns followed by the
constructor's strip of the last character) returns the target hostname of
one of the answers with its trailing period stripped, and the result is a
function of the record set and the seed index, so repeated calls with the
same seeded random source agree. -/
theorem resolve_server_spec (answers : List SRVRecord) (k : Nat)
    (hne : answers ≠ []) (hwf : ∀ r ∈ answers, r.wf) :
    (∃ r ∈ answers, ∃ stem, r.target = stem ++ ['.'] ∧
      ipa_server_hostn answers k = some stem) ∧
    (∀ k', k' = k →
      ipa_server_hostn answers k' = ipa_server_hostn answers k) := by
  constructor
  · have hlen : 0 < answers.length := List.length_pos.mpr hne
    have hilt : k % answers.length < answers.length := Nat.mod_lt _ hlen
    set r := answers.get ⟨k % answers.length, hilt⟩ with hr
    have hmem : r ∈ answers := List.get_mem _ _ _
    have hwfr := hwf r hmem
    have hchoice : choice (answers.map SRVRecord.to_text) k =
        some (SRVRecord.to_text r) := by
      unfold choice
      rw [List.length_map, List.getElem?_map, List.getElem?_eq_getElem hilt]
      rfl
    have hserver : get_ipa_server_from_dns answers k = some r.target := by
      simp only [get_ipa_server_from_dns, hchoice]
      rw [pySplit_to_text r hwfr]
      rfl
    obtain ⟨_, _, _, _, _, _, ht1, _, ht3⟩ := hwfr
    have hsp : r.target.dropLast ++ ['.'] = r.target :=
      List.dropLast_append_getLast? '.' ht3
    refine ⟨r, hmem, r.target.dropLast, hsp.symm, ?_⟩
    unfold ipa_server_hostn
    rw [hserver]
    rfl
  · intro k' hk
    rw [hk]

/-- C1 witness: the theorem instantiated at the two-record sample answer set
and seed index 5. -/
theorem resolve_server_spec_witness :
    demoAnswers ≠ [] ∧ (∀ r ∈ demoAnswers, r.wf) ∧
    ((∃ r ∈ demoAnswers, ∃ stem, r.target = stem ++ ['.'] ∧
        ipa_server_hostn demoAnswers 5 = some stem) ∧
     (∀ k', k' = 5 →
        ipa_server_hostn demoAnswers k' = ipa_server_hostn demoAnswers 5)) :=
  ⟨by decide, by decide,
   resolve_server_spec demoAnswers 5 (by decide) (by decide)⟩

/-- C6 witness: the theorem instantiated at the sample failing transport and
hostname. -/
theorem parse_failure_not_propagated_witness :
    (∀ p, ∃ e, (badTransport p).json = Except.error e) ∧
    (((enroll_ipa_host badTransport demoHostname).result = Except.ok none ∧
       (enroll_ipa_host badTransport demoHostname).logs ≠ []) ∧
     ((get_ipa_host badTransport demoHostname).result = Except.ok none ∧
       (get_ipa_host badTransport demoHostname).logs ≠ []) ∧
     ((get_ipa_hosts badTransport).result = Except.ok none ∧
       (get_ipa_hosts badTransport).logs ≠ [])) :=
  ⟨fun _ => ⟨_, rfl⟩,
   parse_failure_not_propagated badTransport demoHostname
     (fun _ => ⟨_, rfl⟩)⟩

end Services
